import Mathlib

/-!
Shallow embedding of the stressor workloads of this repository
(src/stress-context.c, src/stress-cap.c, src/stress-watchdog.c) and proofs
about their loop behaviour, error paths and descriptor tables.

External effects (device opens, capget/capset results, signal delivery,
memory-clobbering of the context canaries, the cooperative keep-running
flag) are supplied by explicit environment records; loops are run on fuel
and return `none` when the fuel is exhausted before the loop exits.
Floating-point duration/rate bookkeeping of stress-context.c is not
modelled (it does not affect control flow, counters or return codes).
-/

namespace StressNg

/-- Termination outcomes of a stressor workload: EXIT_SUCCESS, EXIT_FAILURE,
EXIT_NO_RESOURCE and the NOT_IMPLEMENTED outcome of a stub workload. -/
inductive Outcome where
  | success
  | failure
  | noResource
  | notImplemented
deriving DecidableEq

/-- Worker run states (STRESS_STATE_* in the engine): the lifecycle machine
NOT_STARTED, INITIALIZING, RUNNING, DEINITIALIZING, STOPPED. -/
inductive ProcState where
  | notStarted
  | initializing
  | running
  | deinitializing
  | stopped
deriving DecidableEq

/-- Modelled from the spec: `keep_stressing(args)`, defined in the engine
header of this repository (outside src/).  Spec 4.2: the keep-running
predicate is `flag == true AND (ceiling == 0 OR counter < ceiling)`. -/
def keep_stressing (flag : Bool) (max_ops counter : ℕ) : Bool :=
  flag && (max_ops == 0 || decide (counter < max_ops))

/-- Keep-running predicate written exactly as the specification words it
(spec 4.2), used as the refinement reference for claim C5. -/
def specKeepRunning (flag : Bool) (ceiling counter : ℕ) : Bool :=
  (flag == true) && ((ceiling == 0) || decide (counter < ceiling))

/-! ## stress-context.c -/

/-- Guard of the three micro-thread do-while loops, stress-context.c lines
77/88/99: `keep_stressing_flag() && (!stress_max_ops || (context_counter <
stress_max_ops))`.  `flag` is the value of `keep_stressing_flag()` at this
check. -/
def contextGuard (flag : Bool) (stress_max_ops context_counter : ℕ) : Bool :=
  flag && (stress_max_ops == 0 || decide (context_counter < stress_max_ops))

/-- Check phase of the three micro threads after the first round of
increments.  The threads run round-robin: after the initial three
unconditional increments (`context_counter = 3`) every step is: the resumed
thread evaluates its do-while guard at the current `context_counter`; if it
holds the thread increments the counter once and swaps to the next thread,
otherwise it swaps back to `uctx_main` and the run exits with the current
counter.  `flag n` is the keep-running flag observed at the check where the
counter equals `n`; the second component counts guard evaluations. -/
def contextLoop (flag : ℕ → Bool) (m : ℕ) : ℕ → ℕ → ℕ → Option (ℕ × ℕ)
  | 0, _, _ => none
  | fuel + 1, c, e =>
    if contextGuard (flag c) m c then contextLoop flag m fuel (c + 1) (e + 1)
    else some (c, e + 1)

/-- Environment of one `stress_context` call: whether the anonymous mmap of
the three context buffers succeeds, the results of the three `getcontext`
calls in `stress_context_init`, whether the initial `swapcontext` into
thread 1 succeeds, the keep-running flag at each guard check, and, for each
of the three contexts, whether the canaries before/after the saved context
are intact at the end of the run. -/
structure ContextEnv where
  mmap_ok : Bool
  getcontext_ok : List Bool
  swap_ok : Bool
  flag : ℕ → Bool
  canary_ok : List (Bool × Bool)

/-- Observable result of one `stress_context` call: the return code, the
value written by `set_counter` (and how many times it was written), the
final internal `context_counter`, the number of guard evaluations, the
run states set via `stress_set_proc_state`, the number of `pr_fail`
messages and whether a skip message was printed. -/
structure ContextResult where
  rc : Outcome
  reported : ℕ
  set_counter_calls : ℕ
  internal : ℕ
  checks : ℕ
  states : List ProcState
  fail_msgs : ℕ
  skip_msg : Bool
deriving DecidableEq

/-- Number of `pr_fail` canary messages emitted by the verification loop of
stress-context.c lines 181-190: one message per clobbered canary. -/
def canaryFailMsgs : List (Bool × Bool) → ℕ
  | [] => 0
  | p :: l => (if p.1 then 0 else 1) + (if p.2 then 0 else 1) + canaryFailMsgs l

/-- Embedding of `stress_context` (stress-context.c lines 141-201).
Control flow: mmap failure prints a skip message and returns
EXIT_NO_RESOURCE; a failed `getcontext` in the init loop prints a failure
message and returns EXIT_FAILURE before STRESS_STATE_RUN is set; a failed
initial `swapcontext` prints a failure message and takes `goto fail` (so
STRESS_STATE_DEINIT is never set) returning EXIT_FAILURE; otherwise the
micro-thread loop runs, `set_counter(args, context_counter / 1000)` is
called once, the canary checks emit `pr_fail` messages without changing
`rc`, STRESS_STATE_DEINIT is set and EXIT_SUCCESS is returned. -/
def contextStressRun (env : ContextEnv) (max_ops fuel : ℕ) : Option ContextResult :=
  if env.mmap_ok = false then
    some ⟨Outcome.noResource, 0, 0, 0, 0, [], 0, true⟩
  else if env.getcontext_ok.all (fun b => b) = false then
    some ⟨Outcome.failure, 0, 0, 0, 0, [], 1, false⟩
  else if env.swap_ok = false then
    some ⟨Outcome.failure, 0, 0, 0, 0, [ProcState.running], 1, false⟩
  else
    (contextLoop env.flag (max_ops * 1000) fuel 3 0).map (fun ce =>
      ⟨Outcome.success, ce.1 / 1000, 1, ce.1, ce.2,
       [ProcState.running, ProcState.deinitializing],
       canaryFailMsgs env.canary_ok, false⟩)

/-! ## stress-watchdog.c -/

/-- Outcome of one iteration of the `stress_watchdog` while loop, supplied
by the environment: the `open` of /dev/watchdog fails (busy device, lines
149-156), the iteration completes (open, magic close, ioctls, magic close,
close all succeed, counter incremented, lines 158-245), the final `close`
fails (lines 238-243), or a signal is delivered during the iteration and
the handler unwinds via `siglongjmp` (lines 83-94). -/
inductive WdEvent where
  | openFail
  | ok
  | closeFail
  | signal
deriving DecidableEq

/-- State of the watchdog file descriptor and device, for the magic-close
cleanup model: the current value of the global `fd` and whether a magic
close ("V" write) has been requested on the open device. -/
structure WdDevState where
  fd : Int
  magic_requested : Bool
deriving DecidableEq

/-- Embedding of `stress_watchdog_magic_close` (stress-watchdog.c lines
72-81): if `fd >= 0` write "V" to the descriptor (return value discarded),
otherwise do nothing. -/
def stress_watchdog_magic_close (s : WdDevState) : WdDevState :=
  if 0 ≤ s.fd then { s with magic_requested := true } else s

/-- Effect of `close(fd); fd = -1;` (stress-watchdog.c lines 236-237) on
the descriptor state. -/
def wdCloseFd (s : WdDevState) : WdDevState :=
  { s with fd := -1 }

/-- Embedding of `stress_watchdog_handler` (stress-watchdog.c lines
83-94): run the magic close (its outcome is ignored), clear the
keep-stressing flag, and unconditionally `siglongjmp` back to the resume
point.  Result: (device state, keep-running flag after, jumped). -/
def stress_watchdog_handler (s : WdDevState) : WdDevState × Bool × Bool :=
  (stress_watchdog_magic_close s, false, true)

/-- Environment of one `stress_watchdog` call: whether installing the
signal handlers succeeds, whether `access("/dev/watchdog", R_OK|W_OK)`
succeeds, the per-iteration event, and the keep-running flag at the
iteration's `keep_stressing` check. -/
structure WdEnv where
  sighandler_ok : Bool
  access_ok : Bool
  events : ℕ → WdEvent
  flag : ℕ → Bool

/-- Result of the watchdog while loop: the pending return code, the bogo
counter, the number of `nanosleep` back-offs taken on busy opens, the
number of `keep_stressing` evaluations, and whether the loop was left via
the handler's `siglongjmp`. -/
structure WdLoopRes where
  rc : Outcome
  counter : ℕ
  sleeps : ℕ
  checks : ℕ
  jumped : Bool
deriving DecidableEq

/-- Embedding of the `while (keep_stressing(args))` loop of
`stress_watchdog` (stress-watchdog.c lines 145-246).  A busy open sleeps
10us and retries on the next iteration without touching the counter; a
completed iteration increments the counter once; a failed close prints a
failure message, sets `rc = EXIT_FAILURE` and breaks; a signal runs the
handler which jumps out (the jump target returns EXIT_SUCCESS). -/
def watchdogLoop (ev : ℕ → WdEvent) (flag : ℕ → Bool) (m : ℕ) :
    ℕ → ℕ → ℕ → ℕ → ℕ → Option WdLoopRes
  | 0, _, _, _, _ => none
  | fuel + 1, k, counter, sleeps, checks =>
    if keep_stressing (flag k) m counter then
      match ev k with
      | WdEvent.openFail =>
          watchdogLoop ev flag m fuel (k + 1) counter (sleeps + 1) (checks + 1)
      | WdEvent.ok =>
          watchdogLoop ev flag m fuel (k + 1) (counter + 1) sleeps (checks + 1)
      | WdEvent.closeFail => some ⟨Outcome.failure, counter, sleeps, checks + 1, false⟩
      | WdEvent.signal => some ⟨Outcome.success, counter, sleeps, checks + 1, true⟩
    else some ⟨Outcome.success, counter, sleeps, checks + 1, false⟩

/-- Observable result of one `stress_watchdog` call. -/
structure WdResult where
  rc : Outcome
  counter : ℕ
  sleeps : ℕ
  checks : ℕ
  ranRun : Bool
  ranDeinit : Bool
  jumped : Bool
  skip_msg : Bool
  fail_msgs : ℕ
deriving DecidableEq

/-- Embedding of `stress_watchdog` (stress-watchdog.c lines 100-251).
Control flow: a failed handler installation returns EXIT_FAILURE; a failed
`access` on /dev/watchdog prints an informational skip message and returns
EXIT_SUCCESS (for both the ENOENT and the other-errno branch) before
STRESS_STATE_RUN is set; otherwise STRESS_STATE_RUN is set and the loop
runs.  Leaving the loop normally (or by the close-failure break) sets
STRESS_STATE_DEINIT and returns `rc`; leaving it through the handler's
`siglongjmp` returns EXIT_SUCCESS from the `sigsetjmp` block without ever
setting STRESS_STATE_DEINIT. -/
def stress_watchdog (env : WdEnv) (max_ops fuel : ℕ) : Option WdResult :=
  if env.sighandler_ok = false then
    some ⟨Outcome.failure, 0, 0, 0, false, false, false, false, 0⟩
  else if env.access_ok = false then
    some ⟨Outcome.success, 0, 0, 0, false, false, false, true, 0⟩
  else
    (watchdogLoop env.events env.flag max_ops fuel 0 0 0 0).map (fun r =>
      if r.jumped then
        ⟨Outcome.success, r.counter, r.sleeps, r.checks, true, false, true, false, 0⟩
      else
        ⟨r.rc, r.counter, r.sleeps, r.checks, true, true, false, false,
         if r.rc = Outcome.failure then 1 else 0⟩)

/-! ## stress-cap.c -/

/-- Environment of one `stress_capgetset_pid` call: whether the first
`capget` succeeds and, if not, whether its errno is ESRCH; likewise for
the `capset` taken when `do_set` is true.  The further capget/capset
probes of the function have their return values discarded (VOID_RET) and
do not influence any observable state. -/
structure CapProbeEnv where
  capget_ok : Bool
  capget_esrch : Bool
  capset_ok : Bool
  capset_esrch : Bool
deriving DecidableEq

/-- Embedding of `stress_capgetset_pid` (stress-cap.c lines 35-139) acting
on the bogo counter and the count of `pr_fail` messages.  The first
`capget` failure is reported unless errno is ESRCH for a pid asserted not
to exist; when `do_set` holds the same logic applies to `capset`; all
remaining exercise calls discard their results; `inc_counter` runs exactly
once at the end regardless of any probe outcome. -/
def stress_capgetset_pid (pe : CapProbeEnv) (do_set pid_exists : Bool)
    (counter fails : ℕ) : ℕ × ℕ :=
  let f1 := if !pe.capget_ok && ((pe.capget_esrch && pid_exists) || !pe.capget_esrch)
            then 1 else 0
  let f2 := if do_set &&
               (!pe.capset_ok && ((pe.capset_esrch && pid_exists) || !pe.capset_esrch))
            then 1 else 0
  (counter + 1, fails + f1 + f2)

/-- Running state threaded through the `stress_cap` loop: the bogo
counter, the accumulated `pr_fail` count, the number of
`stress_capgetset_pid` probes performed, and the number of
`keep_stressing` evaluations. -/
structure CapSt where
  counter : ℕ
  fails : ℕ
  probes : ℕ
  chks : ℕ
deriving DecidableEq

/-- Environment of one `stress_cap` call: the probe environment of the
n-th `stress_capgetset_pid` call, whether `opendir("/proc")` succeeds in
the k-th outer iteration, the number of digit-named /proc entries scanned
in the k-th outer iteration, and the keep-running flag at the n-th
`keep_stressing` evaluation. -/
structure CapEnv where
  probe_env : ℕ → CapProbeEnv
  dir_ok : ℕ → Bool
  proc_entries : ℕ → ℕ
  flag : ℕ → Bool

/-- One `stress_capgetset_pid` call inside `stress_cap`, consuming the
next probe environment. -/
def capProbeStep (env : CapEnv) (do_set pid_exists : Bool) (st : CapSt) : CapSt :=
  let r := stress_capgetset_pid (env.probe_env st.probes) do_set pid_exists
             st.counter st.fails
  ⟨r.1, r.2, st.probes + 1, st.chks⟩

/-- One `keep_stressing(args)` evaluation inside `stress_cap`, consuming
the next flag sample. -/
def capCheck (env : CapEnv) (max_ops : ℕ) (st : CapSt) : Bool × CapSt :=
  (keep_stressing (env.flag st.chks) max_ops st.counter,
   { st with chks := st.chks + 1 })

/-- Embedding of the /proc scan of `stress_cap` (stress-cap.c lines
162-178): for each digit-named entry, probe its pid (`do_set = false`,
`exists = false`) and stop scanning when `keep_stressing` fails. -/
def capScan (env : CapEnv) (max_ops : ℕ) : ℕ → CapSt → CapSt
  | 0, st => st
  | n + 1, st =>
    let st1 := capProbeStep env false false st
    let p := capCheck env max_ops st1
    if p.1 then capScan env max_ops n p.2 else p.2

/-- One iteration of the `stress_cap` do-while body (stress-cap.c lines
149-179): probe pid 1, the worker's own pid (with `do_set`), the parent
pid, then scan /proc when `opendir` succeeded; after each probe a
`keep_stressing` check may break out of the body, and the do-while
condition is evaluated at the end.  Returns the new state and whether the
loop continues. -/
def capIter (env : CapEnv) (max_ops k : ℕ) (st : CapSt) : CapSt × Bool :=
  let st1 := capProbeStep env false true st
  let p1 := capCheck env max_ops st1
  if p1.1 = false then (p1.2, false) else
  let st2 := capProbeStep env true true p1.2
  let p2 := capCheck env max_ops st2
  if p2.1 = false then (p2.2, false) else
  let st3 := capProbeStep env false false p2.2
  let p3 := capCheck env max_ops st3
  if p3.1 = false then (p3.2, false) else
  let st4 := if env.dir_ok k then capScan env max_ops (env.proc_entries k) p3.2
             else p3.2
  let p4 := capCheck env max_ops st4
  (p4.2, p4.1)

/-- The `stress_cap` do-while loop on fuel (number of outer iterations). -/
def capLoop (env : CapEnv) (max_ops : ℕ) : ℕ → ℕ → CapSt → Option CapSt
  | 0, _, _ => none
  | fuel + 1, k, st =>
    let r := capIter env max_ops k st
    if r.2 then capLoop env max_ops fuel (k + 1) r.1 else some r.1

/-- Observable result of one `stress_cap` call. -/
structure CapResult where
  rc : Outcome
  st : CapSt
  states : List ProcState
deriving DecidableEq

/-- Embedding of `stress_cap` (stress-cap.c lines 145-183): set
STRESS_STATE_RUN, run the do-while loop, set STRESS_STATE_DEINIT and
return EXIT_SUCCESS — the function's only return statement. -/
def stress_cap (env : CapEnv) (max_ops fuel : ℕ) : Option CapResult :=
  (capLoop env max_ops fuel 0 ⟨0, 0, 0, 0⟩).map
    (fun st => ⟨Outcome.success, st, [ProcState.running, ProcState.deinitializing]⟩)

/-! ## Stressor descriptors (stressor_info_t tables) -/

/-- Identity of a workload entry point referenced by a descriptor. -/
inductive StressorFn where
  | context_fn
  | cap_fn
  | watchdog_fn
  | unimplemented_fn
deriving DecidableEq

/-- One line of a stressor's help table. -/
structure HelpEntry where
  option_name : String
  description : String
deriving DecidableEq

/-- Modelled from the spec: the resource-class bit values live in the
engine header of this repository (outside src/); the spec (3, 4.5) only
requires a bitset of distinct class flags, so distinct powers of two are
used. -/
def CLASS_CPU : ℕ := 1

/-- Resource class flag: memory. -/
def CLASS_MEMORY : ℕ := 2

/-- Resource class flag: virtual memory. -/
def CLASS_VM : ℕ := 4

/-- Resource class flag: operating system. -/
def CLASS_OS : ℕ := 8

/-- Resource class flag: pathological. -/
def CLASS_PATHOLOGICAL : ℕ := 16

/-- Embedding of `stressor_info_t`: workload entry point, resource-class
bitset, verify policy (VERIFY_ALWAYS present or absent), help table, and
the optional unimplemented-reason string. -/
structure stressor_info_t where
  stressor : StressorFn
  classBits : ℕ
  verify_always : Bool
  help : List HelpEntry
  unimplemented_reason : Option String
deriving DecidableEq

/-- Modelled from the spec: `stress_unimplemented`, defined in the engine
of this repository (outside src/); spec 4.1: "a stub workload that
immediately returns NOT_IMPLEMENTED with a human-readable reason rather
than crashing". -/
def stress_unimplemented : Outcome := Outcome.notImplemented

/-- Help table of stress-context.c lines 28-32. -/
def help_context : List HelpEntry :=
  [⟨"context N", "start N workers exercising user context"⟩,
   ⟨"context-ops N", "stop context workers after N bogo operations"⟩]

/-- Help table of stress-cap.c lines 26-30. -/
def help_cap : List HelpEntry :=
  [⟨"cap N", "start N workers exercising capget"⟩,
   ⟨"cap-ops N", "stop cap workers after N bogo capget operations"⟩]

/-- Help table of stress-watchdog.c lines 26-30. -/
def help_watchdog : List HelpEntry :=
  [⟨"watchdog N", "start N workers that exercise /dev/watchdog"⟩,
   ⟨"watchdog-ops N", "stop after N bogo watchdog operations"⟩]

/-- `stress_context_info`, implemented variant (stress-context.c lines
203-208). -/
def stress_context_info : stressor_info_t :=
  ⟨StressorFn.context_fn, CLASS_MEMORY ||| CLASS_CPU, true, help_context, none⟩

/-- `stress_context_info`, stub variant registered when swapcontext or
ucontext.h is unavailable (stress-context.c lines 210-215). -/
def stress_context_info_unimpl : stressor_info_t :=
  ⟨StressorFn.unimplemented_fn, CLASS_MEMORY ||| CLASS_CPU, false, help_context,
   some "built without ucontext.h"⟩

/-- `stress_cap_info`, implemented variant (stress-cap.c lines 185-190). -/
def stress_cap_info : stressor_info_t :=
  ⟨StressorFn.cap_fn, CLASS_OS, true, help_cap, none⟩

/-- `stress_cap_info`, stub variant registered when sys/capability.h is
unavailable (stress-cap.c lines 192-197). -/
def stress_cap_info_unimpl : stressor_info_t :=
  ⟨StressorFn.unimplemented_fn, CLASS_OS, false, help_cap,
   some "built without sys/capability.h"⟩

/-- `stress_watchdog_info`, implemented variant (stress-watchdog.c lines
253-257). -/
def stress_watchdog_info : stressor_info_t :=
  ⟨StressorFn.watchdog_fn, CLASS_VM ||| CLASS_OS ||| CLASS_PATHOLOGICAL, false,
   help_watchdog, none⟩

/-- `stress_watchdog_info`, stub variant registered when linux/watchdog.h
is unavailable (stress-watchdog.c lines 259-264). -/
def stress_watchdog_info_unimpl : stressor_info_t :=
  ⟨StressorFn.unimplemented_fn, CLASS_VM ||| CLASS_OS ||| CLASS_PATHOLOGICAL, false,
   help_watchdog, some "built without linux/watchdog.h"⟩

/-! ## Concrete environments used by witnesses and counterexamples -/

/-- Context environment where every host call succeeds, the flag stays
true and no canary is clobbered. -/
def ctxEnvTrue : ContextEnv :=
  ⟨true, [true, true, true], true, fun _ => true,
   [(true, true), (true, true), (true, true)]⟩

/-- Context environment where the run is cancelled at the first guard
check and the leading canary of context 0 is found clobbered. -/
def ctxEnvClobber : ContextEnv :=
  ⟨true, [true, true, true], true, fun _ => false,
   [(false, true), (true, true), (true, true)]⟩

/-- Watchdog environment where every iteration completes. -/
def wdEnvOk : WdEnv := ⟨true, true, fun _ => WdEvent.ok, fun _ => true⟩

/-- Watchdog environment whose first iteration fails to close the device. -/
def wdEnvCloseFail : WdEnv := ⟨true, true, fun _ => WdEvent.closeFail, fun _ => true⟩

/-- Watchdog environment where a signal arrives in the first iteration. -/
def wdEnvSignal : WdEnv := ⟨true, true, fun _ => WdEvent.signal, fun _ => true⟩

/-- Watchdog environment where /dev/watchdog is absent or inaccessible. -/
def wdEnvNoDev : WdEnv := ⟨true, false, fun _ => WdEvent.ok, fun _ => true⟩

/-- Watchdog environment where the first open finds the device busy and
all later iterations complete. -/
def wdEnvBusyThenOk : WdEnv :=
  ⟨true, true, fun k => if k = 0 then WdEvent.openFail else WdEvent.ok,
   fun _ => true⟩

/-- Cap environment where every capget/capset succeeds. -/
def capEnvOk : CapEnv :=
  ⟨fun _ => ⟨true, true, true, true⟩, fun _ => true, fun _ => 4, fun _ => true⟩

/-- Cap environment where every first capget fails with an errno other
than ESRCH, so every probe logs a verification failure. -/
def capEnvFailProbe : CapEnv :=
  ⟨fun _ => ⟨false, false, true, true⟩, fun _ => true, fun _ => 2, fun _ => true⟩

/-! ## Helper lemmas -/

theorem keep_stressing_eq_true {f : Bool} {m c : ℕ} :
    keep_stressing f m c = true ↔ f = true ∧ (m = 0 ∨ c < m) := by
  simp [keep_stressing]

theorem keep_stressing_eq_false {f : Bool} {m c : ℕ} :
    keep_stressing f m c = false ↔ f = false ∨ (m ≠ 0 ∧ m ≤ c) := by
  rcases f with _ | _ <;> simp [keep_stressing]

theorem contextGuard_eq_true {f : Bool} {m c : ℕ} :
    contextGuard f m c = true ↔ f = true ∧ (m = 0 ∨ c < m) := by
  simp [contextGuard]

theorem contextLoop_some {flag : ℕ → Bool} {m : ℕ} :
    ∀ {fuel c e c' e'}, contextLoop flag m fuel c e = some (c', e') →
      c ≤ c' ∧ e' = e + (c' - c) + 1 := by
  intro fuel
  induction fuel with
  | zero => intro c e c' e' h; simp [contextLoop] at h
  | succ fuel ih =>
    intro c e c' e' h
    rw [contextLoop] at h
    by_cases hg : contextGuard (flag c) m c = true
    · rw [if_pos hg] at h
      have := ih h
      omega
    · rw [if_neg hg] at h
      simp only [Option.some.injEq, Prod.mk.injEq] at h
      omega

theorem contextLoop_le {flag : ℕ → Bool} {m : ℕ} (hm : 0 < m) :
    ∀ {fuel c e c' e'}, c ≤ m → contextLoop flag m fuel c e = some (c', e') →
      c' ≤ m := by
  intro fuel
  induction fuel with
  | zero => intro c e c' e' _ h; simp [contextLoop] at h
  | succ fuel ih =>
    intro c e c' e' hc h
    rw [contextLoop] at h
    by_cases hg : contextGuard (flag c) m c = true
    · rw [if_pos hg] at h
      rcases contextGuard_eq_true.mp hg with ⟨-, hlt⟩
      have hlt' : c < m := by omega
      exact ih (by omega) h
    · rw [if_neg hg] at h
      simp only [Option.some.injEq, Prod.mk.injEq] at h
      omega

theorem contextLoop_true {m : ℕ} (hm : 0 < m) :
    ∀ {fuel c e}, c ≤ m → m - c < fuel →
      contextLoop (fun _ => true) m fuel c e = some (m, e + (m - c) + 1) := by
  intro fuel
  induction fuel with
  | zero => intro c e _ h; omega
  | succ fuel ih =>
    intro c e hc hf
    rw [contextLoop]
    by_cases hcm : c < m
    · rw [if_pos (contextGuard_eq_true.mpr ⟨rfl, Or.inr hcm⟩)]
      rw [ih (by omega) (by omega)]
      rw [show e + 1 + (m - (c + 1)) + 1 = e + (m - c) + 1 from by omega]
    · rw [if_neg (by simp only [contextGuard_eq_true, true_and]; omega)]
      simp only [Option.some.injEq, Prod.mk.injEq]
      omega

theorem watchdogLoop_no_closeFail {ev : ℕ → WdEvent} {flag : ℕ → Bool} {m : ℕ}
    (hev : ∀ j, ev j ≠ WdEvent.closeFail) :
    ∀ {fuel k c s ch r}, watchdogLoop ev flag m fuel k c s ch = some r →
      r.rc = Outcome.success := by
  intro fuel
  induction fuel with
  | zero => intro k c s ch r h; simp [watchdogLoop] at h
  | succ fuel ih =>
    intro k c s ch r h
    rw [watchdogLoop] at h
    by_cases hg : keep_stressing (flag k) m c = true
    · rw [if_pos hg] at h
      rcases hevk : ev k with _ | _ | _ | _ <;> rw [hevk] at h
      · exact ih h
      · exact ih h
      · exact absurd hevk (hev k)
      · injection h with h'; rw [← h']
    · rw [if_neg hg] at h
      injection h with h'; rw [← h']

theorem watchdogLoop_le {ev : ℕ → WdEvent} {flag : ℕ → Bool} {m : ℕ} (hm : 0 < m) :
    ∀ {fuel k c s ch r}, c ≤ m → watchdogLoop ev flag m fuel k c s ch = some r →
      r.counter ≤ m := by
  intro fuel
  induction fuel with
  | zero => intro k c s ch r _ h; simp [watchdogLoop] at h
  | succ fuel ih =>
    intro k c s ch r hc h
    rw [watchdogLoop] at h
    by_cases hg : keep_stressing (flag k) m c = true
    · rcases keep_stressing_eq_true.mp hg with ⟨-, hlt⟩
      have hlt' : c < m := by omega
      rw [if_pos hg] at h
      rcases hevk : ev k with _ | _ | _ | _ <;> rw [hevk] at h
      · exact ih hc h
      · exact ih (by omega) h
      · injection h with h'; rw [← h']; exact hc
      · injection h with h'; rw [← h']; exact hc
    · rw [if_neg hg] at h
      injection h with h'; rw [← h']; exact hc

theorem watchdogLoop_checks {ev : ℕ → WdEvent} {flag : ℕ → Bool} {m : ℕ} :
    ∀ {fuel k c s ch r}, watchdogLoop ev flag m fuel k c s ch = some r →
      r.counter + ch ≤ c + r.checks := by
  intro fuel
  induction fuel with
  | zero => intro k c s ch r h; simp [watchdogLoop] at h
  | succ fuel ih =>
    intro k c s ch r h
    rw [watchdogLoop] at h
    by_cases hg : keep_stressing (flag k) m c = true
    · rw [if_pos hg] at h
      rcases hevk : ev k with _ | _ | _ | _ <;> rw [hevk] at h
      · have := ih h; omega
      · have := ih h; omega
      · injection h with h'; rw [← h']; simp
      · injection h with h'; rw [← h']; simp
    · rw [if_neg hg] at h
      injection h with h'; rw [← h']; simp

theorem watchdogLoop_all_ok {m : ℕ} (hm : 0 < m) :
    ∀ {fuel k c s ch}, c ≤ m → m - c < fuel →
      watchdogLoop (fun _ => WdEvent.ok) (fun _ => true) m fuel k c s ch =
        some ⟨Outcome.success, m, s, ch + (m - c) + 1, false⟩ := by
  intro fuel
  induction fuel with
  | zero => intro k c s ch _ h; omega
  | succ fuel ih =>
    intro k c s ch hc hf
    rw [watchdogLoop]
    by_cases hcm : c < m
    · rw [if_pos (keep_stressing_eq_true.mpr ⟨rfl, Or.inr hcm⟩)]
      show watchdogLoop (fun _ => WdEvent.ok) (fun _ => true) m fuel (k + 1) (c + 1)
        s (ch + 1) = some ⟨Outcome.success, m, s, ch + (m - c) + 1, false⟩
      rw [ih (by omega) (by omega)]
      rw [show ch + 1 + (m - (c + 1)) + 1 = ch + (m - c) + 1 from by omega]
    · rw [if_neg (by simp only [keep_stressing_eq_true, true_and]; omega)]
      simp only [Option.some.injEq, WdLoopRes.mk.injEq, and_true, true_and]
      omega

theorem watchdogLoop_busy_retry {ev : ℕ → WdEvent} {flag : ℕ → Bool}
    {m fuel k c s ch : ℕ} (hg : keep_stressing (flag k) m c = true)
    (hev : ev k = WdEvent.openFail) :
    watchdogLoop ev flag m (fuel + 1) k c s ch =
      watchdogLoop ev flag m fuel (k + 1) c (s + 1) (ch + 1) := by
  rw [watchdogLoop, if_pos hg, hev]

@[simp] theorem capProbeStep_counter (env : CapEnv) (d x : Bool) (st : CapSt) :
    (capProbeStep env d x st).counter = st.counter + 1 := rfl

@[simp] theorem capProbeStep_probes (env : CapEnv) (d x : Bool) (st : CapSt) :
    (capProbeStep env d x st).probes = st.probes + 1 := rfl

@[simp] theorem capProbeStep_chks (env : CapEnv) (d x : Bool) (st : CapSt) :
    (capProbeStep env d x st).chks = st.chks := rfl

@[simp] theorem capCheck_fst (env : CapEnv) (m : ℕ) (st : CapSt) :
    (capCheck env m st).1 = keep_stressing (env.flag st.chks) m st.counter := rfl

@[simp] theorem capCheck_snd_counter (env : CapEnv) (m : ℕ) (st : CapSt) :
    (capCheck env m st).2.counter = st.counter := rfl

@[simp] theorem capCheck_snd_probes (env : CapEnv) (m : ℕ) (st : CapSt) :
    (capCheck env m st).2.probes = st.probes := rfl

@[simp] theorem capCheck_snd_chks (env : CapEnv) (m : ℕ) (st : CapSt) :
    (capCheck env m st).2.chks = st.chks + 1 := rfl

theorem capScan_inv (env : CapEnv) (m : ℕ) :
    ∀ n st, st.counter ≤ (capScan env m n st).counter ∧
      (capScan env m n st).counter + st.probes
        = (capScan env m n st).probes + st.counter ∧
      (capScan env m n st).counter + st.chks
        ≤ st.counter + (capScan env m n st).chks := by
  intro n
  induction n with
  | zero => intro st; simp [capScan]; omega
  | succ n ih =>
    intro st
    simp only [capScan]
    split
    · have H := ih (capCheck env m (capProbeStep env false false st)).2
      simp only [capCheck_snd_counter, capCheck_snd_probes, capCheck_snd_chks,
        capProbeStep_counter, capProbeStep_probes, capProbeStep_chks] at H
      omega
    · simp
      omega

theorem capScan_le (env : CapEnv) {m : ℕ} :
    ∀ n st, st.counter < m → (capScan env m n st).counter ≤ m := by
  intro n
  induction n with
  | zero => intro st h; simp [capScan]; omega
  | succ n ih =>
    intro st h
    simp only [capScan]
    split
    · rename_i hc
      simp only [capCheck_fst, capCheck_snd_counter, capProbeStep_counter,
        capProbeStep_chks, keep_stressing_eq_true] at hc
      exact ih _ (by simp; omega)
    · simp; omega

theorem capIter_cp (env : CapEnv) (m k : ℕ) (st : CapSt) :
    st.counter < (capIter env m k st).1.counter ∧
    (capIter env m k st).1.counter + st.probes
      = (capIter env m k st).1.probes + st.counter ∧
    (capIter env m k st).1.counter + st.chks
      ≤ st.counter + (capIter env m k st).1.chks := by
  simp only [capIter]
  split
  · simp
    omega
  split
  · simp
    omega
  split
  · simp
    omega
  split
  · have H := capScan_inv env m (env.proc_entries k)
      (capCheck env m (capProbeStep env false false
        (capCheck env m (capProbeStep env true true
          (capCheck env m (capProbeStep env false true st)).2)).2)).2
    simp only [capCheck_snd_counter, capCheck_snd_probes, capCheck_snd_chks,
      capProbeStep_counter, capProbeStep_probes, capProbeStep_chks] at H
    simp
    omega
  · simp
    omega

theorem capIter_spec (env : CapEnv) {m : ℕ} (hm : 0 < m) (k : ℕ) (st : CapSt)
    (hst : st.counter < m) :
    (capIter env m k st).1.counter ≤ m ∧
    ((capIter env m k st).2 = true → (capIter env m k st).1.counter < m) ∧
    ((capIter env m k st).2 = false → (∀ i, env.flag i = true) →
      (capIter env m k st).1.counter = m) := by
  simp only [capIter]
  split
  · rename_i h1
    simp only [capCheck_fst, capProbeStep_counter, capProbeStep_chks] at h1
    refine ⟨by simp; omega, by simp, ?_⟩
    intro _ hflag
    rw [keep_stressing_eq_false, hflag] at h1
    simp at h1 ⊢
    omega
  rename_i h1
  simp only [capCheck_fst, capProbeStep_counter, capProbeStep_chks,
    Bool.not_eq_false, keep_stressing_eq_true] at h1
  split
  · rename_i h2
    simp only [capCheck_fst, capCheck_snd_counter, capCheck_snd_chks,
      capProbeStep_counter, capProbeStep_chks] at h2
    refine ⟨by simp; omega, by simp, ?_⟩
    intro _ hflag
    rw [keep_stressing_eq_false, hflag] at h2
    simp at h2 ⊢
    omega
  rename_i h2
  simp only [capCheck_fst, capCheck_snd_counter, capCheck_snd_chks,
    capProbeStep_counter, capProbeStep_chks, Bool.not_eq_false,
    keep_stressing_eq_true] at h2
  split
  · rename_i h3
    simp only [capCheck_fst, capCheck_snd_counter, capCheck_snd_chks,
      capProbeStep_counter, capProbeStep_chks] at h3
    refine ⟨by simp; omega, by simp, ?_⟩
    intro _ hflag
    rw [keep_stressing_eq_false, hflag] at h3
    simp at h3 ⊢
    omega
  rename_i h3
  simp only [capCheck_fst, capCheck_snd_counter, capCheck_snd_chks,
    capProbeStep_counter, capProbeStep_chks, Bool.not_eq_false,
    keep_stressing_eq_true] at h3
  have hs4 : (if env.dir_ok k then
      capScan env m (env.proc_entries k)
        (capCheck env m (capProbeStep env false false
          (capCheck env m (capProbeStep env true true
            (capCheck env m (capProbeStep env false true st)).2)).2)).2
    else
      (capCheck env m (capProbeStep env false false
        (capCheck env m (capProbeStep env true true
          (capCheck env m (capProbeStep env false true st)).2)).2)).2).counter ≤ m := by
    split
    · exact capScan_le env _ _ (by simp; omega)
    · simp
      omega
  refine ⟨by simpa using hs4, ?_, ?_⟩
  · intro hcont
    simp only [capCheck_fst, keep_stressing_eq_true] at hcont
    simp only [capCheck_snd_counter]
    omega
  · intro hcont hflag
    simp only [capCheck_fst, keep_stressing_eq_false, hflag] at hcont
    simp only [capCheck_snd_counter]
    simp at hcont
    omega

theorem capLoop_cp (env : CapEnv) (m : ℕ) :
    ∀ fuel k st st', capLoop env m fuel k st = some st' →
      st.counter ≤ st'.counter ∧
      st'.counter + st.probes = st'.probes + st.counter ∧
      st'.counter + st.chks ≤ st.counter + st'.chks := by
  intro fuel
  induction fuel with
  | zero => intro k st st' h; simp [capLoop] at h
  | succ fuel ih =>
    intro k st st' h
    simp only [capLoop] at h
    have H := capIter_cp env m k st
    split at h
    · have H' := ih (k + 1) (capIter env m k st).1 st' h
      omega
    · injection h with h'
      rw [← h']
      omega

theorem capLoop_le (env : CapEnv) {m : ℕ} (hm : 0 < m) :
    ∀ fuel k st st', st.counter < m → capLoop env m fuel k st = some st' →
      st'.counter ≤ m := by
  intro fuel
  induction fuel with
  | zero => intro k st st' _ h; simp [capLoop] at h
  | succ fuel ih =>
    intro k st st' hst h
    simp only [capLoop] at h
    have H := capIter_spec env hm k st hst
    split at h
    · rename_i hcont
      exact ih (k + 1) (capIter env m k st).1 st' (H.2.1 hcont) h
    · injection h with h'
      rw [← h']
      exact H.1

theorem capLoop_true (env : CapEnv) {m : ℕ} (hm : 0 < m)
    (hflag : ∀ i, env.flag i = true) :
    ∀ fuel k st, st.counter < m → m - st.counter < fuel →
      ∃ st', capLoop env m fuel k st = some st' ∧ st'.counter = m := by
  intro fuel
  induction fuel with
  | zero => intro k st _ h; omega
  | succ fuel ih =>
    intro k st hst hf
    simp only [capLoop]
    have H := capIter_spec env hm k st hst
    have Hp := capIter_cp env m k st
    split
    · rename_i hcont
      exact ih (k + 1) (capIter env m k st).1 (H.2.1 hcont) (by omega)
    · rename_i hcont
      exact ⟨(capIter env m k st).1, rfl, H.2.2 (by simpa using hcont) hflag⟩

theorem canaryFailMsgs_eq_zero :
    ∀ l : List (Bool × Bool),
      canaryFailMsgs l = 0 ↔ l.all (fun p => p.1 && p.2) = true := by
  intro l
  induction l with
  | nil => simp [canaryFailMsgs]
  | cons p l ih =>
    rcases p with ⟨a, b⟩
    rcases a with _ | _ <;> rcases b with _ | _ <;>
      simp [canaryFailMsgs, ih]

/-! ## Claim theorems -/

/-- Claim C5: the cooperative keep-running predicate evaluated by every
workload inner loop is exactly `flag == true AND (ceiling == 0 OR
counter < ceiling)`: the context micro-thread guard embedded from the
source and the engine `keep_stressing` predicate both coincide with the
predicate as the spec words it, and each workload evaluates the predicate
at least once per completed unit of work (in every terminating run the
number of predicate evaluations is at least the number of bogo operations
counted). -/
theorem keep_running_predicate_spec :
    (∀ f m c, contextGuard f m c = specKeepRunning f m c) ∧
    (∀ f m c, keep_stressing f m c = specKeepRunning f m c) ∧
    (∀ env m fuel r, stress_watchdog env m fuel = some r →
      r.counter ≤ r.checks) ∧
    (∀ env m fuel r, stress_cap env m fuel = some r →
      r.st.counter ≤ r.st.chks) ∧
    (∀ env m fuel r, contextStressRun env m fuel = some r →
      r.reported ≤ r.checks) := by
  refine ⟨?_, ?_, ?_, ?_, ?_⟩
  · intro f m c; cases f <;> rfl
  · intro f m c; cases f <;> rfl
  · intro env m fuel r h
    unfold stress_watchdog at h
    split at h
    · injection h with h'; rw [← h']
    split at h
    · injection h with h'; rw [← h']
    rw [Option.map_eq_some'] at h
    obtain ⟨r0, hl, hw⟩ := h
    have hc := watchdogLoop_checks hl
    by_cases hj : r0.jumped = true
    · rw [if_pos hj] at hw
      rw [← hw]
      simpa using hc
    · rw [if_neg hj] at hw
      rw [← hw]
      simpa using hc
  · intro env m fuel r h
    unfold stress_cap at h
    rw [Option.map_eq_some'] at h
    obtain ⟨st', hl, hw⟩ := h
    have H := capLoop_cp env m fuel 0 _ _ hl
    rw [← hw]
    show st'.counter ≤ st'.chks
    simpa using H.2.2
  · intro env m fuel r h
    unfold contextStressRun at h
    split at h
    · injection h with h'; rw [← h']
    split at h
    · injection h with h'; rw [← h']
    split at h
    · injection h with h'; rw [← h']
    rw [Option.map_eq_some'] at h
    obtain ⟨ce, hl, hw⟩ := h
    obtain ⟨c, e⟩ := ce
    obtain ⟨hc3, he⟩ := contextLoop_some hl
    rw [← hw]
    show c / 1000 ≤ e
    omega

/-- Witness for C5: the completed watchdog run with ceiling 5 counted 5
operations and evaluated the predicate 6 times. -/
theorem keep_running_predicate_spec_wit :
    stress_watchdog wdEnvOk 5 10 =
      some ⟨Outcome.success, 5, 0, 6, true, true, false, false, 0⟩ ∧
    (⟨Outcome.success, 5, 0, 6, true, true, false, false, 0⟩ : WdResult).counter ≤
      (⟨Outcome.success, 5, 0, 6, true, true, false, false, 0⟩ : WdResult).checks :=
  ⟨by decide, keep_running_predicate_spec.2.2.1 wdEnvOk 5 10 _ (by decide)⟩

/-- Claim C6: the forced-unwind emergency cleanup is guarded and
idempotent: once the descriptor is closed (`fd = -1`) the magic close is a
no-op, a second invocation changes nothing beyond the first, the cleanup
never alters (and so never double-releases) the descriptor itself, and the
handler always clears the keep-running flag and proceeds to the
`siglongjmp` resume transfer whatever the cleanup did. -/
theorem watchdog_magic_close_idem :
    (∀ s, stress_watchdog_magic_close (wdCloseFd s) = wdCloseFd s) ∧
    (∀ s, stress_watchdog_magic_close (stress_watchdog_magic_close s) =
      stress_watchdog_magic_close s) ∧
    (∀ s, (stress_watchdog_magic_close s).fd = s.fd) ∧
    (∀ s, (stress_watchdog_handler s).2.2 = true ∧
      (stress_watchdog_handler s).2.1 = false) := by
  refine ⟨?_, ?_, ?_, fun s => ⟨rfl, rfl⟩⟩
  · intro s
    simp [stress_watchdog_magic_close, wdCloseFd]
  · intro s
    by_cases h : (0 : Int) ≤ s.fd <;>
      simp [stress_watchdog_magic_close, h]
  · intro s
    by_cases h : (0 : Int) ≤ s.fd <;>
      simp [stress_watchdog_magic_close, h]

/-- Claim C8: every build-time-unavailable stressor registers a stub
descriptor referencing the unimplemented entry point with a non-empty
human-readable reason, keeping the resource-class bitset and help text of
the implemented variant, and running the stub yields NOT_IMPLEMENTED. -/
theorem unimplemented_stub_descriptors :
    (stress_context_info_unimpl.stressor = StressorFn.unimplemented_fn ∧
     stress_context_info_unimpl.classBits = stress_context_info.classBits ∧
     stress_context_info_unimpl.help = stress_context_info.help ∧
     stress_context_info_unimpl.unimplemented_reason =
       some "built without ucontext.h" ∧
     "built without ucontext.h".length ≠ 0) ∧
    (stress_cap_info_unimpl.stressor = StressorFn.unimplemented_fn ∧
     stress_cap_info_unimpl.classBits = stress_cap_info.classBits ∧
     stress_cap_info_unimpl.help = stress_cap_info.help ∧
     stress_cap_info_unimpl.unimplemented_reason =
       some "built without sys/capability.h" ∧
     "built without sys/capability.h".length ≠ 0) ∧
    (stress_watchdog_info_unimpl.stressor = StressorFn.unimplemented_fn ∧
     stress_watchdog_info_unimpl.classBits = stress_watchdog_info.classBits ∧
     stress_watchdog_info_unimpl.help = stress_watchdog_info.help ∧
     stress_watchdog_info_unimpl.unimplemented_reason =
       some "built without linux/watchdog.h" ∧
     "built without linux/watchdog.h".length ≠ 0) ∧
    stress_unimplemented = Outcome.notImplemented := by
  refine ⟨⟨rfl, rfl, rfl, rfl, by decide⟩, ⟨rfl, rfl, rfl, rfl, by decide⟩,
    ⟨rfl, rfl, rfl, rfl, by decide⟩, rfl⟩

/-- Claim C10: `stress_cap` returns EXIT_SUCCESS on every terminating
execution — for every environment outcome of the capget/capset probes,
including probes whose failure is logged as a verification failure — and
the operation counter is incremented exactly once per probe:
`stress_capgetset_pid` increments by exactly one unconditionally, and in
every completed run the final counter equals the number of probes
performed. -/
theorem cap_always_success :
    (∀ pe d x c f, (stress_capgetset_pid pe d x c f).1 = c + 1) ∧
    (∀ env m fuel r, stress_cap env m fuel = some r →
      r.rc = Outcome.success ∧ r.st.counter = r.st.probes) := by
  refine ⟨fun pe d x c f => rfl, ?_⟩
  intro env m fuel r h
  unfold stress_cap at h
  rw [Option.map_eq_some'] at h
  obtain ⟨st', hl, hw⟩ := h
  have H := capLoop_cp env m fuel 0 _ _ hl
  rw [← hw]
  refine ⟨rfl, ?_⟩
  show st'.counter = st'.probes
  simpa using H.2.1

/-- Witness for C10: a cap run whose every probe logs a capget
verification failure (5 failure messages) still returns EXIT_SUCCESS with
counter = probes = 5. -/
theorem cap_always_success_wit :
    stress_cap capEnvFailProbe 5 100 =
      some ⟨Outcome.success, ⟨5, 5, 5, 6⟩,
        [ProcState.running, ProcState.deinitializing]⟩ ∧
    (⟨Outcome.success, ⟨5, 5, 5, 6⟩,
        [ProcState.running, ProcState.deinitializing]⟩ : CapResult).rc
      = Outcome.success ∧
    (⟨Outcome.success, ⟨5, 5, 5, 6⟩,
        [ProcState.running, ProcState.deinitializing]⟩ : CapResult).st.counter
      = (⟨Outcome.success, ⟨5, 5, 5, 6⟩,
        [ProcState.running, ProcState.deinitializing]⟩ : CapResult).st.probes := by
  have h : stress_cap capEnvFailProbe 5 100 =
      some ⟨Outcome.success, ⟨5, 5, 5, 6⟩,
        [ProcState.running, ProcState.deinitializing]⟩ := by decide
  obtain ⟨h1, h2⟩ := cap_always_success.2 capEnvFailProbe 5 100 _ h
  exact ⟨h, h1, h2⟩

/-- Claim C7: a busy watchdog device is a retryable condition: when the
open fails while the keep-running predicate holds, the loop takes one more
back-off sleep and retries the open on the next iteration with the counter
and pending return code untouched; and an execution in which opens fail
any number of times but no close fails never returns FAILURE. -/
theorem watchdog_busy_retry_thm :
    (∀ ev fl m fuel k c s ch, keep_stressing (fl k) m c = true →
      ev k = WdEvent.openFail →
      watchdogLoop ev fl m (fuel + 1) k c s ch =
        watchdogLoop ev fl m fuel (k + 1) c (s + 1) (ch + 1)) ∧
    (∀ env m fuel r, env.sighandler_ok = true →
      (∀ j, env.events j ≠ WdEvent.closeFail) →
      stress_watchdog env m fuel = some r → r.rc ≠ Outcome.failure) := by
  refine ⟨fun ev fl m fuel k c s ch hg hev => watchdogLoop_busy_retry hg hev, ?_⟩
  intro env m fuel r hsig hev h
  unfold stress_watchdog at h
  rw [if_neg (by simp [hsig])] at h
  split at h
  · injection h with h'
    rw [← h']
    simp
  rw [Option.map_eq_some'] at h
  obtain ⟨r0, hl, hw⟩ := h
  have hrc := watchdogLoop_no_closeFail hev hl
  by_cases hj : r0.jumped = true
  · rw [if_pos hj] at hw
    rw [← hw]
    simp
  · rw [if_neg hj] at hw
    rw [← hw]
    show r0.rc ≠ Outcome.failure
    rw [hrc]
    simp

/-- Witness for C7: with the device busy at the first open, the loop
backs off and retries (one sleep recorded), and the whole run with a busy
first open and five completed iterations returns without FAILURE. -/
theorem watchdog_busy_retry_wit :
    watchdogLoop wdEnvBusyThenOk.events wdEnvBusyThenOk.flag 5 10 0 0 0 0 =
      watchdogLoop wdEnvBusyThenOk.events wdEnvBusyThenOk.flag 5 9 1 0 1 1 ∧
    stress_watchdog wdEnvBusyThenOk 5 100 =
      some ⟨Outcome.success, 5, 1, 7, true, true, false, false, 0⟩ ∧
    (⟨Outcome.success, 5, 1, 7, true, true, false, false, 0⟩ : WdResult).rc ≠
      Outcome.failure := by
  have h2 : stress_watchdog wdEnvBusyThenOk 5 100 =
      some ⟨Outcome.success, 5, 1, 7, true, true, false, false, 0⟩ := by decide
  refine ⟨watchdog_busy_retry_thm.1 wdEnvBusyThenOk.events wdEnvBusyThenOk.flag
      5 9 0 0 0 0 (by decide) (by decide), h2,
    watchdog_busy_retry_thm.2 wdEnvBusyThenOk 5 100 _ rfl ?_ h2⟩
  intro j
  show (if j = 0 then WdEvent.openFail else WdEvent.ok) ≠ WdEvent.closeFail
  by_cases hj : j = 0 <;> simp [hj]

/-- Counterexample to claim C2 as stated: in this watchdog run the worker
enters RUNNING, a signal arrives during the loop, the handler unwinds via
`siglongjmp`, and `stress_watchdog` returns EXIT_SUCCESS from the
`sigsetjmp` block without ever transitioning to DEINITIALIZING. -/
theorem deinit_skip_cx :
    (stress_watchdog wdEnvSignal 5 100).map
      (fun r => (r.ranRun, r.ranDeinit, r.rc)) =
      some (true, false, Outcome.success) := by decide

/-- Claim C2 amended: every return of `stress_cap`, every non-jump return
of `stress_watchdog`, and every return of `stress_context` whose initial
`swapcontext` succeeded passes through DEINITIALIZING after RUNNING; the
exceptions are exactly the watchdog's `siglongjmp` path (which returns
with DEINITIALIZING never set) and the context stressor's
swapcontext-failure exit. -/
theorem deinit_on_return_amended :
    (∀ env m fuel r, stress_watchdog env m fuel = some r → r.ranRun = true →
      r.jumped = false → r.ranDeinit = true) ∧
    (∀ env m fuel r, stress_cap env m fuel = some r →
      r.states = [ProcState.running, ProcState.deinitializing]) ∧
    (∀ env m fuel r, contextStressRun env m fuel = some r →
      ProcState.running ∈ r.states → env.swap_ok = true →
      ProcState.deinitializing ∈ r.states) ∧
    (∀ env m fuel r, stress_watchdog env m fuel = some r → r.jumped = true →
      r.ranRun = true ∧ r.ranDeinit = false) := by
  refine ⟨?_, ?_, ?_, ?_⟩
  · intro env m fuel r h hrun hj
    unfold stress_watchdog at h
    split at h
    · injection h with h'; rw [← h'] at hrun; simp at hrun
    split at h
    · injection h with h'; rw [← h'] at hrun; simp at hrun
    rw [Option.map_eq_some'] at h
    obtain ⟨r0, hl, hw⟩ := h
    by_cases hj0 : r0.jumped = true
    · rw [if_pos hj0] at hw
      rw [← hw] at hj
      simp at hj
    · rw [if_neg hj0] at hw
      rw [← hw]
  · intro env m fuel r h
    unfold stress_cap at h
    rw [Option.map_eq_some'] at h
    obtain ⟨st', hl, hw⟩ := h
    rw [← hw]
  · intro env m fuel r h hmem hsw
    unfold contextStressRun at h
    split at h
    · injection h with h'; rw [← h'] at hmem; simp at hmem
    split at h
    · injection h with h'; rw [← h'] at hmem; simp at hmem
    split at h
    · rename_i hswf
      rw [hsw] at hswf
      simp at hswf
    rw [Option.map_eq_some'] at h
    obtain ⟨ce, hl, hw⟩ := h
    rw [← hw]
    simp
  · intro env m fuel r h hj
    unfold stress_watchdog at h
    split at h
    · injection h with h'; rw [← h'] at hj; simp at hj
    split at h
    · injection h with h'; rw [← h'] at hj; simp at hj
    rw [Option.map_eq_some'] at h
    obtain ⟨r0, hl, hw⟩ := h
    by_cases hj0 : r0.jumped = true
    · rw [if_pos hj0] at hw
      rw [← hw]
      exact ⟨rfl, rfl⟩
    · rw [if_neg hj0] at hw
      rw [← hw] at hj
      simp at hj

/-- Witness for the amended C2: a completed watchdog run (no jump) did
pass through DEINITIALIZING. -/
theorem deinit_on_return_amended_wit :
    stress_watchdog wdEnvOk 5 12 =
      some ⟨Outcome.success, 5, 0, 6, true, true, false, false, 0⟩ ∧
    (⟨Outcome.success, 5, 0, 6, true, true, false, false, 0⟩ : WdResult).ranDeinit
      = true := by
  have h : stress_watchdog wdEnvOk 5 12 =
      some ⟨Outcome.success, 5, 0, 6, true, true, false, false, 0⟩ := by decide
  exact ⟨h, deinit_on_return_amended.1 wdEnvOk 5 12 _ h rfl rfl⟩

/-- Counterexample to claim C3 as stated: with /dev/watchdog missing or
inaccessible, `stress_watchdog` prints an informational skip message but
returns EXIT_SUCCESS, not EXIT_NO_RESOURCE. -/
theorem no_resource_cx :
    (stress_watchdog wdEnvNoDev 5 10).map (fun r => (r.rc, r.skip_msg)) =
      some (Outcome.success, true) ∧
    Outcome.success ≠ Outcome.noResource := ⟨by decide, by decide⟩

/-- Claim C3 amended: when its resource is unavailable the context
stressor returns EXIT_NO_RESOURCE with a skip message (allocation
failure), while the watchdog stressor returns EXIT_SUCCESS with an
informational skip message (device missing or inaccessible); neither
outcome is FAILURE. -/
theorem no_resource_skip_amended :
    (∀ env m fuel, env.mmap_ok = false →
      contextStressRun env m fuel =
        some ⟨Outcome.noResource, 0, 0, 0, 0, [], 0, true⟩) ∧
    (∀ env m fuel, env.sighandler_ok = true → env.access_ok = false →
      stress_watchdog env m fuel =
        some ⟨Outcome.success, 0, 0, 0, false, false, false, true, 0⟩) ∧
    Outcome.noResource ≠ Outcome.failure ∧
    Outcome.success ≠ Outcome.failure := by
  refine ⟨?_, ?_, by decide, by decide⟩
  · intro env m fuel hm
    unfold contextStressRun
    rw [if_pos hm]
  · intro env m fuel hs ha
    unfold stress_watchdog
    rw [if_neg (by simp [hs]), if_pos ha]

/-- Witness for the amended C3 at the concrete no-device environment. -/
theorem no_resource_skip_amended_wit :
    wdEnvNoDev.sighandler_ok = true ∧ wdEnvNoDev.access_ok = false ∧
    stress_watchdog wdEnvNoDev 7 3 =
      some ⟨Outcome.success, 0, 0, 0, false, false, false, true, 0⟩ :=
  ⟨rfl, rfl, no_resource_skip_amended.2.1 wdEnvNoDev 7 3 rfl rfl⟩

/-- Counterexample to claim C4 as stated: a context run that detects a
clobbered canary emits the failure message (fail_msgs = 1) yet still
returns EXIT_SUCCESS — the canary check of stress-context.c lines 181-190
never assigns EXIT_FAILURE to `rc`. -/
theorem context_canary_cx :
    (contextStressRun ctxEnvClobber 5 10).map (fun r => (r.rc, r.fail_msgs)) =
      some (Outcome.success, 1) ∧
    Outcome.success ≠ Outcome.failure := ⟨by decide, by decide⟩

/-- Claim C4 amended: after a completed context run, one descriptive
failure message is emitted per clobbered canary (none exactly when all six
canaries are intact), but the worker's return code is EXIT_SUCCESS whether
or not a mismatch was detected. -/
theorem context_canary_amended :
    ∀ env m fuel r, contextStressRun env m fuel = some r →
      env.mmap_ok = true → env.getcontext_ok.all (fun b => b) = true →
      env.swap_ok = true →
      r.rc = Outcome.success ∧
      (r.fail_msgs = 0 ↔ env.canary_ok.all (fun p => p.1 && p.2) = true) := by
  intro env m fuel r h hm hg hs
  unfold contextStressRun at h
  rw [if_neg (by simp [hm]), if_neg (by simp [hg]), if_neg (by simp [hs])] at h
  rw [Option.map_eq_some'] at h
  obtain ⟨ce, hl, hw⟩ := h
  rw [← hw]
  exact ⟨rfl, canaryFailMsgs_eq_zero env.canary_ok⟩

set_option maxRecDepth 100000 in
/-- Witness for the amended C4: a full run with intact canaries returns
EXIT_SUCCESS with no failure message. -/
theorem context_canary_amended_wit :
    contextStressRun ctxEnvTrue 1 1000 =
      some ⟨Outcome.success, 1, 1, 1000, 998,
        [ProcState.running, ProcState.deinitializing], 0, false⟩ ∧
    Outcome.success = Outcome.success ∧
    ((0 : ℕ) = 0 ↔ ctxEnvTrue.canary_ok.all (fun p => p.1 && p.2) = true) := by
  have h : contextStressRun ctxEnvTrue 1 1000 =
      some ⟨Outcome.success, 1, 1, 1000, 998,
        [ProcState.running, ProcState.deinitializing], 0, false⟩ := by decide
  have H := context_canary_amended ctxEnvTrue 1 1000 _ h rfl rfl rfl
  exact ⟨h, H.1, H.2⟩

/-- Counterexample to claim C1 as stated: with the keep-running flag held
true throughout, ceiling 5 and no cancellation, the watchdog run whose
first iteration fails to close the device terminates with final counter
0 ≠ 5 (and returns FAILURE), so a workload run under a positive ceiling
with the flag true does not always end with counter = ceiling. -/
theorem workload_ceiling_cx :
    (stress_watchdog wdEnvCloseFail 5 100).map (fun r => (r.rc, r.counter)) =
      some (Outcome.failure, 0) ∧ (0 : ℕ) ≠ 5 := ⟨by decide, by decide⟩

/-- Claim C1 amended: under a positive ceiling C the final counter of
every terminating run of each workload never exceeds C; and — absent early
cancellation and absent abnormal iterations (the device opening and
closing successfully for the watchdog) — each workload's loop terminates
with counter exactly C: the watchdog with all-ok iterations, the cap
stressor, and the context stressor (whose internal ceiling is max_ops *
1000 and whose reported counter, written by set_counter at loop exit,
equals C exactly). -/
theorem workload_ceiling_amended :
    (∀ env m fuel r, 0 < m → stress_watchdog env m fuel = some r →
      r.counter ≤ m) ∧
    (∀ env m fuel r, 0 < m → stress_cap env m fuel = some r →
      r.st.counter ≤ m) ∧
    (∀ env m fuel r, 0 < m → contextStressRun env m fuel = some r →
      r.reported ≤ m) ∧
    (∀ env m fuel, 0 < m → env.sighandler_ok = true → env.access_ok = true →
      env.events = (fun _ => WdEvent.ok) → env.flag = (fun _ => true) →
      m < fuel →
      ∃ r, stress_watchdog env m fuel = some r ∧ r.counter = m ∧
        r.rc = Outcome.success) ∧
    (∀ env m fuel, 0 < m → (∀ i, env.flag i = true) → m < fuel →
      ∃ r, stress_cap env m fuel = some r ∧ r.st.counter = m ∧
        r.rc = Outcome.success) ∧
    (∀ env m fuel, 0 < m → env.mmap_ok = true →
      env.getcontext_ok.all (fun b => b) = true → env.swap_ok = true →
      env.flag = (fun _ => true) → m * 1000 ≤ fuel →
      ∃ r, contextStressRun env m fuel = some r ∧ r.reported = m ∧
        r.rc = Outcome.success) := by
  refine ⟨?_, ?_, ?_, ?_, ?_, ?_⟩
  · intro env m fuel r hm h
    unfold stress_watchdog at h
    split at h
    · injection h with h'; rw [← h']; exact Nat.zero_le m
    split at h
    · injection h with h'; rw [← h']; exact Nat.zero_le m
    rw [Option.map_eq_some'] at h
    obtain ⟨r0, hl, hw⟩ := h
    have hb := watchdogLoop_le hm (Nat.zero_le m) hl
    by_cases hj : r0.jumped = true
    · rw [if_pos hj] at hw; rw [← hw]; exact hb
    · rw [if_neg hj] at hw; rw [← hw]; exact hb
  · intro env m fuel r hm h
    unfold stress_cap at h
    rw [Option.map_eq_some'] at h
    obtain ⟨st', hl, hw⟩ := h
    rw [← hw]
    exact capLoop_le env hm fuel 0 _ st' hm hl
  · intro env m fuel r hm h
    unfold contextStressRun at h
    split at h
    · injection h with h'; rw [← h']; exact Nat.zero_le m
    split at h
    · injection h with h'; rw [← h']; exact Nat.zero_le m
    split at h
    · injection h with h'; rw [← h']; exact Nat.zero_le m
    rw [Option.map_eq_some'] at h
    obtain ⟨ce, hl, hw⟩ := h
    obtain ⟨c, e⟩ := ce
    have hb := contextLoop_le (show 0 < m * 1000 by omega)
      (show (3 : ℕ) ≤ m * 1000 by omega) hl
    rw [← hw]
    show c / 1000 ≤ m
    omega
  · intro env m fuel hm h1 h2 hev hfl hf
    refine ⟨⟨Outcome.success, m, 0, 0 + (m - 0) + 1, true, true, false, false, 0⟩,
      ?_, rfl, rfl⟩
    unfold stress_watchdog
    rw [if_neg (by simp [h1]), if_neg (by simp [h2]), hev, hfl]
    rw [watchdogLoop_all_ok hm (Nat.zero_le m) (by omega)]
    simp
  · intro env m fuel hm hflag hf
    obtain ⟨st', hl, hc⟩ := capLoop_true env hm hflag fuel 0 ⟨0, 0, 0, 0⟩ hm
      (show m - (0 : ℕ) < fuel by omega)
    refine ⟨⟨Outcome.success, st',
      [ProcState.running, ProcState.deinitializing]⟩, ?_, hc, rfl⟩
    unfold stress_cap
    rw [hl]
    rfl
  · intro env m fuel hm h1 h2 h3 hfl hf
    have hrun : contextStressRun env m fuel =
        some ⟨Outcome.success, m * 1000 / 1000, 1, m * 1000,
          0 + (m * 1000 - 3) + 1,
          [ProcState.running, ProcState.deinitializing],
          canaryFailMsgs env.canary_ok, false⟩ := by
      unfold contextStressRun
      rw [if_neg (by simp [h1]), if_neg (by simp [h2]), if_neg (by simp [h3]), hfl]
      rw [contextLoop_true (show (0 : ℕ) < m * 1000 by omega) (by omega) (by omega)]
      rfl
    refine ⟨_, hrun, ?_, rfl⟩
    show m * 1000 / 1000 = m
    omega

/-- Witness for the amended C1: the close-failure run stays within the
ceiling (counter 0 ≤ 5). -/
theorem workload_ceiling_amended_wit :
    (0 : ℕ) < 5 ∧
    stress_watchdog wdEnvCloseFail 5 100 =
      some ⟨Outcome.failure, 0, 0, 1, true, true, false, false, 1⟩ ∧
    (⟨Outcome.failure, 0, 0, 1, true, true, false, false, 1⟩ : WdResult).counter
      ≤ 5 := by
  have h : stress_watchdog wdEnvCloseFail 5 100 =
      some ⟨Outcome.failure, 0, 0, 1, true, true, false, false, 1⟩ := by decide
  exact ⟨by decide, h,
    workload_ceiling_amended.1 wdEnvCloseFail 5 100 _ (by decide) h⟩

/-- Claim C9: with max_ops = C > 0 and the flag true throughout, the
context stressor's internal ceiling is C * 1000 and the internal counter
at loop exit equals C * 1000 exactly (in particular it lies in the window
[C * 1000, C * 1000 + 2]); set_counter is invoked exactly once at the end
and writes internal / 1000 = C. -/
theorem context_scaled_ceiling :
    ∀ env m fuel, 0 < m → env.mmap_ok = true →
      env.getcontext_ok.all (fun b => b) = true → env.swap_ok = true →
      env.flag = (fun _ => true) → m * 1000 ≤ fuel →
      ∃ r, contextStressRun env m fuel = some r ∧
        r.internal = m * 1000 ∧
        m * 1000 ≤ r.internal ∧ r.internal ≤ m * 1000 + 2 ∧
        r.set_counter_calls = 1 ∧
        r.reported = r.internal / 1000 ∧ r.reported = m := by
  intro env m fuel hm h1 h2 h3 hfl hf
  have hrun : contextStressRun env m fuel =
      some ⟨Outcome.success, m * 1000 / 1000, 1, m * 1000,
        0 + (m * 1000 - 3) + 1,
        [ProcState.running, ProcState.deinitializing],
        canaryFailMsgs env.canary_ok, false⟩ := by
    unfold contextStressRun
    rw [if_neg (by simp [h1]), if_neg (by simp [h2]), if_neg (by simp [h3]), hfl]
    rw [contextLoop_true (show (0 : ℕ) < m * 1000 by omega) (by omega) (by omega)]
    rfl
  refine ⟨_, hrun, rfl, le_refl _, show m * 1000 ≤ m * 1000 + 2 by omega,
    rfl, rfl, ?_⟩
  show m * 1000 / 1000 = m
  omega

set_option maxRecDepth 100000 in
/-- Witness for C9: the concrete run with C = 1 exits its loop with
internal counter 1000 = 1 * 1000 and reports 1000 / 1000 = 1. -/
theorem context_scaled_ceiling_wit :
    (0 : ℕ) < 1 ∧
    contextStressRun ctxEnvTrue 1 1100 =
      some ⟨Outcome.success, 1, 1, 1000, 998,
        [ProcState.running, ProcState.deinitializing], 0, false⟩ ∧
    (1000 : ℕ) = 1 * 1000 ∧ (1 : ℕ) = 1000 / 1000 := by
  obtain ⟨r, hr, hint, -⟩ :=
    context_scaled_ceiling ctxEnvTrue 1 1100 (by decide) rfl rfl rfl rfl
      (by decide)
  exact ⟨by decide, by decide, by decide, by decide⟩

end StressNg
